import Mathlib

/-!
Verification of the core of the EV charging optimization backend
(`src/backend/app.py`): the time-of-use tariff lookup (`get_tou_rates`),
the solar potential estimate (`calculate_solar_potential`), the ML score
fallback (`predict_optimization_score`) and the charging session optimizer
(the `/api/optimize-session` handler `optimize_session`).

Modeling conventions:
* Timestamps are whole microseconds since the Unix epoch, the resolution of
  Python `datetime` values.  Money/energy amounts are exact rationals
  (Python floats are a subset of the rationals; the optimizer arithmetic is
  modeled exactly).
* The solar model and the ML feature vector use real numbers because the
  source computes with `cos`/`sin`.
* External interactions (the per-hour weather fetch, the wall clock read by
  `calculate_solar_potential`, the loaded scaler/model objects) enter the
  embedding as explicit parameters: a per-iteration trace for the optimizer
  loop and a `ModelEnv` record for the scorer.
* A Python exception is modeled as `Except.error`.
* `pandas.sort_values('optimization_score', ascending=False)` sorts by
  descending score with an arbitrary but deterministic order among ties, and
  Python `sorted(..., key=datetime)` is a stable ascending sort; both are
  modeled with `List.insertionSort` (deterministic and stable), which is a
  faithful model up to the tie order the source leaves unspecified.
-/

namespace EVOpt

/-- Number of microseconds in `timedelta(hours=1)`. -/
def usPerHour : Nat := 3600000000

/-- Number of microseconds in one day. -/
def usPerDay : Nat := 86400000000

/-- `dt.replace(minute=0, second=0, microsecond=0)`: truncate a timestamp down
to its hour boundary. -/
def truncHour (t : Nat) : Nat := (t / usPerHour) * usPerHour

/-- `dt.hour`. -/
def hourOf (t : Nat) : Nat := (t / usPerHour) % 24

/-- `dt.weekday()`, Monday = 0.  1970-01-01 (epoch day 0) was a Thursday,
weekday 3. -/
def weekdayOf (t : Nat) : Nat := (t / usPerDay + 3) % 7

/-- `dt.weekday() >= 5`. -/
def isWeekendAt (t : Nat) : Bool := weekdayOf t ≥ 5

/-!
`EVChargingAPI.get_tou_rates` (app.py lines 196-215).

`EVChargingAPI.__init__` stores the two rate tables as
`self.los_angeles_dept_water_power_rates`
(`base_period 0.22, low_peak 0.223, high_peak 0.37`) and
`self.southern_california_edison_rates`
(`off_peak 0.27, mid_peak 0.30, on_peak 0.32`).

The `utility == 'ladwp'` branch of `get_tou_rates` reads `self.ladwp_rates`,
an attribute that is never assigned anywhere in the module, so every path
through that branch raises `AttributeError`; this is modeled as
`Except.error`.  Any other utility string falls into the `else` branch, which
reads the Southern California Edison table (the attribute that does exist).
-/

/-- `EVChargingAPI.get_tou_rates`. -/
def get_tou_rates (hour : Nat) (is_weekend : Bool) (utility : String) :
    Except String (ℚ × String) :=
  if utility = "ladwp" then
    -- every return in this branch evaluates `self.ladwp_rates[...]`,
    -- an attribute `__init__` never defines
    Except.error "AttributeError: EVChargingAPI object has no attribute ladwp_rates"
  else
    if is_weekend ∨ hour < 16 ∨ 22 ≤ hour then
      Except.ok (0.27, "off_peak")
    else if (16 ≤ hour ∧ hour < 18) ∨ (20 ≤ hour ∧ hour < 22) then
      Except.ok (0.30, "mid_peak")
    else if 18 ≤ hour ∧ hour < 20 then
      Except.ok (0.32, "on_peak")
    else
      Except.ok (0.27, "off_peak")

/-!  The session optimizer (`optimize_session`, app.py lines 524-628). -/

/-- Outcome of one iteration of the per-hour loop's external interactions:
the weather fetch (`fetch_current_weather`, network or randomized fallback),
the wall-clock-based solar estimate derived from it
(`calculate_solar_potential(weather)['power_kw']`) and the model score
(`predict_optimization_score`, which depends on the loaded model files and the
wall clock).  The `i`-th loop iteration reads entry `i` of the trace. -/
structure ExternalHour where
  score : ℚ
  solar_power_kw : ℚ
  temperature : ℚ

/-- One element of the `schedule` list built by the per-hour loop. -/
structure HourCandidate where
  datetime : Nat
  hour : Nat
  optimization_score : ℚ
  utility_rate : ℚ
  solar_power_kw : ℚ
  temperature : ℚ

/-- One element of `optimal_schedule` (the greedy allocator's output). -/
structure ScheduleEntry where
  datetime : Nat
  hour : Nat
  energy_kwh : ℚ
  charging_cost : ℚ
  utility_rate : ℚ
  optimization_score : ℚ
  solar_available_kw : ℚ
  solar_offset : ℚ

/-- The `optimization_summary` object of the response. -/
structure OptSummary where
  total_energy_kwh : ℚ
  total_cost : ℚ
  average_rate : ℚ
  solar_offset_kwh : ℚ
  solar_percentage : ℚ
  charging_hours : Nat
  utility : String

/-- The success response body: summary plus the datetime-sorted schedule. -/
structure OptResult where
  summary : OptSummary
  charging_schedule : List ScheduleEntry

/-- Fueled form of the `while current_time < session_end` loop; the fuel only
forces termination and `sessionEnd - current` of it is always enough because
every iteration advances `current` by a full hour. -/
def collectHoursFuel : Nat → Nat → Nat → List Nat
  | 0, _, _ => []
  | fuel + 1, sessionEnd, current =>
    if current < sessionEnd then
      current :: collectHoursFuel fuel sessionEnd (current + usPerHour)
    else []

/-- The hour-enumeration loop of `optimize_session`: every hour boundary from
`current` (the truncated session start) up to but excluding `sessionEnd`. -/
def collectHours (sessionEnd current : Nat) : List Nat :=
  collectHoursFuel (sessionEnd - current) sessionEnd current

/-- Body of the per-hour loop: for the `i`-th candidate hour `t`, read the
external data from the trace, look up the tariff for the requested utility
(an `AttributeError` there aborts the request handler) and build the
`schedule` record. -/
def buildCandidates (trace : Nat → ExternalHour) (utility : String) :
    List Nat → Nat → Except String (List HourCandidate)
  | [], _ => Except.ok []
  | t :: rest, i =>
    match get_tou_rates (hourOf t) (isWeekendAt t) utility with
    | Except.error msg => Except.error msg
    | Except.ok rate_period =>
      match buildCandidates trace utility rest (i + 1) with
      | Except.error msg => Except.error msg
      | Except.ok cs =>
        Except.ok ({ datetime := t, hour := hourOf t,
                     optimization_score := (trace i).score,
                     utility_rate := rate_period.1,
                     solar_power_kw := (trace i).solar_power_kw,
                     temperature := (trace i).temperature } :: cs)

/-- Descending-score order used by
`schedule_df.sort_values('optimization_score', ascending=False)`. -/
def scoreDesc (a b : HourCandidate) : Prop :=
  b.optimization_score ≤ a.optimization_score

instance : DecidableRel scoreDesc := fun a b =>
  inferInstanceAs (Decidable (b.optimization_score ≤ a.optimization_score))

/-- Ascending-datetime order used by
`sorted(optimal_schedule, key=lambda x: x['datetime'])`. -/
def dtAsc (a b : ScheduleEntry) : Prop := a.datetime ≤ b.datetime

instance : DecidableRel dtAsc := fun a b =>
  inferInstanceAs (Decidable (a.datetime ≤ b.datetime))

/-- The greedy allocation loop: walk the score-sorted candidates; stop when
`remaining_energy <= 0`; give each visited hour
`hour_energy = min(remaining_energy, 50)` (50 kW per-hour cap), cost
`hour_energy * utility_rate` and solar offset
`min(hour_energy, solar_power_kw)`. -/
def allocate : ℚ → List HourCandidate → List ScheduleEntry
  | _, [] => []
  | remaining, hd :: rest =>
    if remaining ≤ 0 then []
    else
      -- hour_energy = min(remaining_energy, 50)
      { datetime := hd.datetime, hour := hd.hour,
        energy_kwh := min remaining 50,
        charging_cost := min remaining 50 * hd.utility_rate,
        utility_rate := hd.utility_rate,
        optimization_score := hd.optimization_score,
        solar_available_kw := hd.solar_power_kw,
        solar_offset := min (min remaining 50) hd.solar_power_kw } ::
      allocate (remaining - min remaining 50) rest

/-- Allocation, summary and final datetime sort performed on a successfully
built candidate list. -/
def buildResult (energy_needed : ℚ) (utility : String)
    (schedule : List HourCandidate) : OptResult :=
  let optimal := allocate energy_needed (schedule.insertionSort scoreDesc)
  let total_cost := (optimal.map ScheduleEntry.charging_cost).sum
  let total_solar := (optimal.map ScheduleEntry.solar_offset).sum
  { summary :=
      { total_energy_kwh := energy_needed,
        total_cost := total_cost,
        average_rate := if energy_needed > 0 then total_cost / energy_needed else 0,
        solar_offset_kwh := total_solar,
        solar_percentage := if energy_needed > 0 then total_solar / energy_needed * 100 else 0,
        charging_hours := optimal.length,
        utility := utility },
    charging_schedule := optimal.insertionSort dtAsc }

/-- The `/api/optimize-session` handler.  Validation failures return the 400
responses; an exception raised inside (the `AttributeError` of the `'ladwp'`
tariff branch, or the `KeyError` from sorting an empty `DataFrame` when the
window contains no candidate hour) is caught by the handler's `except` block
and returned as a 500 response; both are modeled as `Except.error`. -/
def optimize_session (trace : Nat → ExternalHour) (session_start session_end : Nat)
    (energy_needed : ℚ) (utility : String) : Except String OptResult :=
  if session_end ≤ session_start then
    Except.error "Session end must be after session start"
  else if energy_needed ≤ 0 then
    Except.error "Energy needed must be positive"
  else
    match buildCandidates trace utility (collectHours session_end (truncHour session_start)) 0 with
    | Except.error msg => Except.error msg
    | Except.ok schedule =>
      if schedule.isEmpty then
        -- pd.DataFrame([]).sort_values('optimization_score') raises KeyError
        Except.error "KeyError: optimization_score"
      else
        Except.ok (buildResult energy_needed utility schedule)

/-!  The solar potential estimate (`calculate_solar_potential`, app.py lines
155-194) and the ML score (`predict_optimization_score`, lines 217-267).
These compute with `cos`/`sin`, hence over the real numbers. -/

noncomputable section

/-- Weather snapshot fields used by the core (the dict returned by
`fetch_current_weather` or `_get_fallback_weather` always carries them). -/
structure Weather where
  temperature : ℝ
  humidity : ℝ
  wind_speed : ℝ
  clouds : ℝ

/-- The dict returned by `calculate_solar_potential`. -/
structure SolarPotential where
  ghi : ℝ
  power_kw : ℝ
  hourly_energy_kwh : ℝ
  temp_factor : ℝ
  cloud_factor : ℝ

/-- `monthly_ghi`: monthly solar irradiance data for the LA area. -/
def monthly_ghi : List ℝ :=
  [3.06, 3.65, 5.15, 6.35, 6.89, 7.24, 7.65, 7.02, 5.79, 4.42, 3.46, 2.82]

/-- `EVChargingAPI.calculate_solar_potential`.  The source takes `hour` and
`month` from `datetime.now()`, not from any passed timestamp; that wall-clock
read enters here as the two explicit arguments.  `self.panel_area = 500` and
`self.efficiency = 0.17` come from `__init__`. -/
def calculate_solar_potential (hour month : Nat) (w : Weather) : SolarPotential :=
  let base_ghi : ℝ := monthly_ghi.getD (month - 1) 0 * 1000 / 24
  let solar_factor : ℝ :=
    if hour < 6 ∨ hour > 19 then 0
    else max 0 (Real.cos (((hour : ℝ) - 12) * 15 * Real.pi / 180) ^ 2)
  let cloud_factor : ℝ := 1 - w.clouds / 100 * 0.8
  let ghi := base_ghi * solar_factor * 2.5 * cloud_factor
  let temp_c := (w.temperature - 32) * 5 / 9
  let temp_factor := 1 + (-0.004) * (temp_c - 25)
  let power_kw := ghi / 1000 * 500 * 0.17 * temp_factor
  { ghi := ghi, power_kw := max 0 power_kw, hourly_energy_kwh := max 0 power_kw,
    temp_factor := temp_factor, cloud_factor := cloud_factor }

/-- External model state of `predict_optimization_score`: the keys of the
loaded `self.models` dict, whether `self.scaler` loaded, and the behavior of
`scaler.transform` and `model.predict`, with a raised exception modeled as
`Except.error`. -/
structure ModelEnv where
  models : List String
  scaler_loaded : Bool
  transform : List ℝ → Except String (List ℝ)
  predict : String → List ℝ → Except String ℝ

/-- The 16-element feature vector built by `predict_optimization_score`
before the `try` block.  `now_hour`/`now_month` are the wall-clock values the
inner `calculate_solar_potential` call reads.  The two tariff lookups use the
fixed identifiers `los_angeles_dept_water_power` and
`southern_california_edison`, which never hit the failing `'ladwp'` branch,
so the `Option.getD` defaults below are unreachable. -/
def build_features (now_hour now_month hour day_of_year month : Nat)
    (is_weekend : Bool) (w : Weather) : List ℝ :=
  let solar_data := calculate_solar_potential now_hour now_month w
  let ghi := solar_data.ghi
  let dni := if ghi > 100 then ghi * 0.7 else 0
  let dhi := if ghi > 50 then ghi * 0.3 else ghi
  let ladwpRate : ℚ :=
    ((get_tou_rates hour is_weekend "los_angeles_dept_water_power").toOption.getD
      (0, "")).1
  let sceRate : ℚ :=
    ((get_tou_rates hour is_weekend "southern_california_edison").toOption.getD
      (0, "")).1
  [(hour : ℝ), (day_of_year : ℝ), (month : ℝ), if is_weekend then 1 else 0,
   ghi, dni, dhi, w.temperature, w.wind_speed, solar_data.hourly_energy_kwh,
   (ladwpRate : ℝ), (sceRate : ℝ),
   Real.sin (2 * Real.pi * hour / 24), Real.cos (2 * Real.pi * hour / 24),
   Real.sin (2 * Real.pi * day_of_year / 365),
   Real.cos (2 * Real.pi * day_of_year / 365)]

/-- `EVChargingAPI.predict_optimization_score`.  Returns the fallback 0.5 when
no model or no scaler is loaded; otherwise scales the features and predicts
with the `lgb_<utility>` model, clamping into [0,1]; any exception inside the
`try` (transform or predict) falls through to the final `return 0.5`. -/
def predict_optimization_score (env : ModelEnv)
    (now_hour now_month hour day_of_year month : Nat) (is_weekend : Bool)
    (w : Weather) (utility : String) : ℝ :=
  if env.models.isEmpty = true ∨ env.scaler_loaded = false then 0.5
  else
    match env.transform (build_features now_hour now_month hour day_of_year month is_weekend w) with
    | Except.error _ => 0.5
    | Except.ok features_scaled =>
      if ("lgb_" ++ utility) ∈ env.models then
        match env.predict ("lgb_" ++ utility) features_scaled with
        | Except.error _ => 0.5
        | Except.ok score => max 0 (min 1 score)
      else 0.5

/-- Sample weather snapshot for the witness theorems. -/
def wSample : Weather := { temperature := 70, humidity := 65, wind_speed := 7, clouds := 20 }

/-- Clear-sky 77 degree snapshot: cloud and temperature derate factors are
both exactly 1. -/
def wClear : Weather := { temperature := 77, humidity := 65, wind_speed := 7, clouds := 0 }

/-- Model environment whose scaler raises on every `transform` call. -/
def envBoom : ModelEnv :=
  { models := ["lgb_los_angeles_dept_water_power"], scaler_loaded := true,
    transform := fun _ => Except.error "boom",
    predict := fun _ _ => Except.ok 1 }

end

/-!  Concrete fixtures used by the witness theorems. -/

/-- A constant external-data trace: neutral score 0.5, no solar, 70 degrees. -/
def trace0 : Nat → ExternalHour :=
  fun _ => { score := 1/2, solar_power_kw := 0, temperature := 70 }

/-- Placeholder result used only as the `Option.getD` default below. -/
def emptyOptResult : OptResult :=
  { summary := { total_energy_kwh := 0, total_cost := 0, average_rate := 0,
                 solar_offset_kwh := 0, solar_percentage := 0, charging_hours := 0,
                 utility := "" },
    charging_schedule := [] }

/-- Result of a 3-hour window (00:00 to 03:00 on 1970-01-01) with 120 kWh
requested: capacity 150 kWh suffices. -/
def resW : OptResult :=
  ((optimize_session trace0 0 10800000000 120 "los_angeles_dept_water_power").toOption).getD
    emptyOptResult

/-- Result of a 1-hour window with 500 kWh requested: capacity 50 kWh falls
short of the request. -/
def resShort : OptResult :=
  ((optimize_session trace0 0 3600000000 500 "los_angeles_dept_water_power").toOption).getD
    emptyOptResult

/-!  Helper lemmas about the loop embeddings. -/

/-- Unfolding equation for a successor amount of fuel. -/
theorem collectHoursFuel_succ (fuel : Nat) (e c : Nat) :
    collectHoursFuel (fuel + 1) e c =
      if c < e then c :: collectHoursFuel fuel e (c + usPerHour) else [] := by
  rw [collectHoursFuel]

/-- Any two sufficiently large fuels give the loop the same value. -/
theorem collectHoursFuel_congr : ∀ (f1 f2 : Nat) (e c : Nat),
    e - c ≤ f1 → e - c ≤ f2 → collectHoursFuel f1 e c = collectHoursFuel f2 e c := by
  intro f1
  induction f1 with
  | zero =>
    intro f2 e c h1 h2
    cases f2 with
    | zero => rfl
    | succ f2 =>
      rw [collectHoursFuel_succ]
      have hce : ¬ c < e := by omega
      rw [if_neg hce]
      rfl
  | succ f1 ih =>
    intro f2 e c h1 h2
    cases f2 with
    | zero =>
      rw [collectHoursFuel_succ]
      have hce : ¬ c < e := by omega
      rw [if_neg hce]
      rfl
    | succ f2 =>
      rw [collectHoursFuel_succ, collectHoursFuel_succ]
      by_cases hc : c < e
      · have hH : usPerHour = 3600000000 := rfl
        have hb1 : e - (c + usPerHour) ≤ f1 := by omega
        have hb2 : e - (c + usPerHour) ≤ f2 := by omega
        rw [if_pos hc, if_pos hc, ih f2 e (c + usPerHour) hb1 hb2]
      · rw [if_neg hc, if_neg hc]

/-- The loop equation: `collectHours` unfolds exactly like the
`while current_time < session_end` loop. -/
theorem collectHours_eq (e c : Nat) :
    collectHours e c = if c < e then c :: collectHours e (c + usPerHour) else [] := by
  unfold collectHours
  by_cases hc : c < e
  · rw [if_pos hc]
    obtain ⟨k, hk⟩ : ∃ k, e - c = k + 1 := ⟨e - c - 1, by omega⟩
    rw [hk, collectHoursFuel_succ, if_pos hc]
    have hH : usPerHour = 3600000000 := rfl
    have hb : e - (c + usPerHour) ≤ k := by omega
    exact congrArg (List.cons c)
      ((collectHoursFuel_congr k (e - (c + usPerHour)) e (c + usPerHour) hb le_rfl).trans rfl)
  · rw [if_neg hc]
    have h0 : e - c = 0 := by omega
    rw [h0]
    rfl

/-- Membership characterization of the enumerated candidate hours, with an
explicit bound on the remaining window for the induction. -/
theorem collectHours_mem_aux (e : Nat) : ∀ (n : Nat) (c t : Nat), e - c ≤ n →
    (t ∈ collectHours e c ↔ ∃ i : Nat, t = c + i * usPerHour ∧ t < e) := by
  intro n
  induction n with
  | zero =>
    intro c t hn
    have hce : ¬ c < e := by omega
    rw [collectHours_eq, if_neg hce]
    simp only [List.not_mem_nil, false_iff, not_exists, not_and]
    intro i ht
    have hH : usPerHour = 3600000000 := rfl
    omega
  | succ n ih =>
    intro c t hn
    rw [collectHours_eq]
    have hH : usPerHour = 3600000000 := rfl
    by_cases hc : c < e
    · rw [if_pos hc]
      simp only [List.mem_cons]
      constructor
      · rintro (rfl | htail)
        · exact ⟨0, by simp, hc⟩
        · obtain ⟨i, rfl, hlt⟩ := (ih (c + usPerHour) t (by omega)).mp htail
          exact ⟨i + 1, by ring, hlt⟩
      · rintro ⟨i, rfl, hlt⟩
        cases i with
        | zero => left; simp
        | succ k =>
          right
          refine (ih (c + usPerHour) _ (by omega)).mpr ⟨k, by ring, ?_⟩
          exact hlt
    · rw [if_neg hc]
      simp only [List.not_mem_nil, false_iff, not_exists, not_and]
      intro i ht
      omega

/-- Candidate-hour membership: exactly the hour boundaries from `c` below
`e`. -/
theorem collectHours_mem (e c t : Nat) :
    t ∈ collectHours e c ↔ ∃ i : Nat, t = c + i * usPerHour ∧ t < e :=
  collectHours_mem_aux e (e - c) c t le_rfl

/-- Truncating to the hour never moves a timestamp forward. -/
theorem truncHour_le (s : Nat) : truncHour s ≤ s :=
  Nat.div_mul_le_self s usPerHour

/-- A timestamp lies less than one hour past its truncation. -/
theorem lt_truncHour_add (s : Nat) : s < truncHour s + usPerHour := by
  simp only [truncHour, usPerHour]
  omega

/-- Allocation starting from a non-positive remainder produces nothing. -/
theorem allocate_nonpos (l : List HourCandidate) (r : ℚ) (hr : r ≤ 0) :
    allocate r l = [] := by
  cases l with
  | nil => rfl
  | cons hd t =>
    simp only [allocate]
    rw [if_pos hr]

/-- The greedy loop allocates exactly `min r (50 * number of hours)`. -/
theorem allocate_sum (l : List HourCandidate) : ∀ r : ℚ, 0 < r →
    ((allocate r l).map ScheduleEntry.energy_kwh).sum = min r (50 * (l.length : ℚ)) := by
  induction l with
  | nil =>
    intro r hr
    simp only [allocate, List.map_nil, List.sum_nil, List.length_nil, Nat.cast_zero,
      mul_zero]
    exact (min_eq_right hr.le).symm
  | cons hd t ih =>
    intro r hr
    simp only [allocate]
    rw [if_neg (not_le.mpr hr)]
    simp only [List.map_cons, List.sum_cons, List.length_cons, Nat.cast_add, Nat.cast_one]
    by_cases h50 : r ≤ 50
    · rw [min_eq_left h50, allocate_nonpos t (r - r) (by linarith)]
      simp only [List.map_nil, List.sum_nil, add_zero]
      have hle : r ≤ 50 * ((t.length : ℚ) + 1) := by
        have h0 : (0 : ℚ) ≤ (t.length : ℚ) := Nat.cast_nonneg _
        linarith
      rw [min_eq_left hle]
    · push_neg at h50
      rw [min_eq_right h50.le, ih (r - 50) (by linarith), ← min_add_add_left]
      congr 1 <;> ring

/-- Every allocated entry gets a positive amount of energy, capped at 50. -/
theorem allocate_bounds (l : List HourCandidate) : ∀ r : ℚ, 0 < r →
    ∀ x ∈ allocate r l, 0 < x.energy_kwh ∧ x.energy_kwh ≤ 50 := by
  induction l with
  | nil =>
    intro r hr x hx
    simp [allocate] at hx
  | cons hd t ih =>
    intro r hr x hx
    simp only [allocate] at hx
    rw [if_neg (not_le.mpr hr)] at hx
    rcases List.mem_cons.mp hx with rfl | hx2
    · exact ⟨lt_min hr (by norm_num), min_le_right _ _⟩
    · by_cases h50 : r ≤ 50
      · rw [allocate_nonpos t _ (by rw [min_eq_left h50]; linarith)] at hx2
        simp at hx2
      · push_neg at h50
        rw [min_eq_right h50.le] at hx2
        exact ih (r - 50) (by linarith) x hx2

/-- All allocated entries but (possibly) the final one hit the 50 kWh cap. -/
theorem allocate_countP (l : List HourCandidate) : ∀ r : ℚ, 0 < r →
    (allocate r l).countP (fun x => decide (x.energy_kwh < 50)) ≤ 1 := by
  induction l with
  | nil =>
    intro r hr
    simp [allocate]
  | cons hd t ih =>
    intro r hr
    simp only [allocate]
    rw [if_neg (not_le.mpr hr), List.countP_cons]
    by_cases h50 : r ≤ 50
    · have hzero : r - min r 50 ≤ 0 := by
        rw [min_eq_left h50]
        linarith
      rw [allocate_nonpos t _ hzero]
      simp only [List.countP_nil, Nat.zero_add]
      split <;> omega
    · push_neg at h50
      have hmin : min r 50 = 50 := min_eq_right h50.le
      have hdec : (decide ((50 : ℚ) < 50)) = false := by
        simp
      have hc := ih (r - 50) (by linarith)
      simp only [hmin, hdec]
      simpa using hc

/-- Successful candidate construction yields one record per hour. -/
theorem buildCandidates_length (trace : Nat → ExternalHour) (u : String) :
    ∀ (l : List Nat) (i : Nat) (cs : List HourCandidate),
      buildCandidates trace u l i = Except.ok cs → cs.length = l.length := by
  intro l
  induction l with
  | nil =>
    intro i cs h
    simp only [buildCandidates] at h
    cases h
    rfl
  | cons t rest ih =>
    intro i cs h
    simp only [buildCandidates] at h
    rcases hg : get_tou_rates (hourOf t) (isWeekendAt t) u with msg | rp
    · rw [hg] at h
      simp at h
    · rw [hg] at h
      rcases hb : buildCandidates trace u rest (i + 1) with msg | cs2
      · rw [hb] at h
        simp at h
      · rw [hb] at h
        simp only [Except.ok.injEq] at h
        subst h
        simp [ih (i + 1) cs2 hb]

/-- Successful candidate construction preserves emptiness. -/
theorem buildCandidates_isEmpty (trace : Nat → ExternalHour) (u : String) :
    ∀ (l : List Nat) (i : Nat) (cs : List HourCandidate),
      buildCandidates trace u l i = Except.ok cs → cs.isEmpty = l.isEmpty := by
  intro l
  induction l with
  | nil =>
    intro i cs h
    simp only [buildCandidates] at h
    cases h
    rfl
  | cons t rest ih =>
    intro i cs h
    simp only [buildCandidates] at h
    rcases hg : get_tou_rates (hourOf t) (isWeekendAt t) u with msg | rp
    · rw [hg] at h
      simp at h
    · rw [hg] at h
      rcases hb : buildCandidates trace u rest (i + 1) with msg | cs2
      · rw [hb] at h
        simp at h
      · rw [hb] at h
        simp only [Except.ok.injEq] at h
        subst h
        rfl

/-- With any utility other than the dangling `'ladwp'` identifier, the tariff
lookup cannot fail. -/
theorem get_tou_rates_ok (hour : Nat) (w : Bool) (u : String) (hu : u ≠ "ladwp") :
    ∃ p : ℚ × String, get_tou_rates hour w u = Except.ok p := by
  unfold get_tou_rates
  rw [if_neg hu]
  split
  · exact ⟨_, rfl⟩
  · split
    · exact ⟨_, rfl⟩
    · split
      · exact ⟨_, rfl⟩
      · exact ⟨_, rfl⟩

/-- With any utility other than `'ladwp'`, candidate construction succeeds. -/
theorem buildCandidates_ok (trace : Nat → ExternalHour) (u : String) (hu : u ≠ "ladwp") :
    ∀ (l : List Nat) (i : Nat),
      ∃ cs, buildCandidates trace u l i = Except.ok cs ∧ cs.length = l.length := by
  intro l
  induction l with
  | nil => intro i; exact ⟨[], rfl, rfl⟩
  | cons t rest ih =>
    intro i
    obtain ⟨cs, hcs, hlen⟩ := ih (i + 1)
    obtain ⟨p, hp⟩ := get_tou_rates_ok (hourOf t) (isWeekendAt t) u hu
    refine ⟨({ datetime := t, hour := hourOf t,
               optimization_score := (trace i).score,
               utility_rate := p.1,
               solar_power_kw := (trace i).solar_power_kw,
               temperature := (trace i).temperature } : HourCandidate) :: cs, ?_, ?_⟩
    · simp only [buildCandidates, hp, hcs]
    · simp [hlen]

/-- The loop body depends on the external world only through the trace. -/
theorem buildCandidates_congr (t1 t2 : Nat → ExternalHour) (u : String)
    (h : ∀ i, t1 i = t2 i) :
    ∀ (l : List Nat) (i : Nat), buildCandidates t1 u l i = buildCandidates t2 u l i := by
  intro l
  induction l with
  | nil => intro i; rfl
  | cons t rest ih =>
    intro i
    simp only [buildCandidates, h i, ih (i + 1)]

/-- Dissection of a successful optimizer run: validation passed, the
candidate list was built and non-empty, and the result is its allocation. -/
theorem optimize_session_ok_elim {trace : Nat → ExternalHour} {s e : Nat} {E : ℚ}
    {u : String} {res : OptResult}
    (h : optimize_session trace s e E u = Except.ok res) :
    s < e ∧ 0 < E ∧
      ∃ cands, buildCandidates trace u (collectHours e (truncHour s)) 0 = Except.ok cands ∧
        cands.isEmpty = false ∧ res = buildResult E u cands := by
  unfold optimize_session at h
  by_cases h1 : e ≤ s
  · rw [if_pos h1] at h
    exact absurd h (by simp)
  rw [if_neg h1] at h
  by_cases h2 : E ≤ 0
  · rw [if_pos h2] at h
    exact absurd h (by simp)
  rw [if_neg h2] at h
  refine ⟨not_le.mp h1, not_le.mp h2, ?_⟩
  rcases hb : buildCandidates trace u (collectHours e (truncHour s)) 0 with msg | cands
  · rw [hb] at h
    simp at h
  · rw [hb] at h
    by_cases h3 : cands.isEmpty = true
    · simp only [h3, if_true] at h
      exact absurd h (by simp)
    · rw [Bool.not_eq_true] at h3
      refine ⟨cands, rfl, h3, ?_⟩
      simp only [h3, Bool.false_eq_true, if_false, Except.ok.injEq] at h
      exact h.symm

/-- The final schedule of `buildResult` is the datetime sort of the greedy
allocation over the score-sorted candidates. -/
theorem buildResult_schedule (E : ℚ) (u : String) (cands : List HourCandidate) :
    (buildResult E u cands).charging_schedule =
      (allocate E (cands.insertionSort scoreDesc)).insertionSort dtAsc := rfl

/-- The summary of `buildResult` always reports the requested energy. -/
theorem buildResult_total_energy (E : ℚ) (u : String) (cands : List HourCandidate) :
    (buildResult E u cands).summary.total_energy_kwh = E := rfl

/-!  The claims. -/

/-- CLAIM C2.  The claim states that for utility A (LADWP) the lookup returns
the LADWP base/low-peak/high-peak rates keyed on hour and weekend flag.  The
code contradicts it: the `'ladwp'` branch dereferences the nonexistent
attribute `self.ladwp_rates` (`__init__` names the table
`los_angeles_dept_water_power_rates`) and raises `AttributeError` for every
hour, while the identifier `'los_angeles_dept_water_power'` that every caller
actually passes does not match `'ladwp'` and is served from the Southern
California Edison table.  At hour 14 on a weekday the claim expects the
high-peak rate 0.37 labeled `high_peak`; the code errors (for `'ladwp'`) or
returns the SCE off-peak rate 0.27 (for the callers' identifier). -/
theorem get_tou_rates_ladwp_attribute_error :
    get_tou_rates 14 false "ladwp" =
      Except.error "AttributeError: EVChargingAPI object has no attribute ladwp_rates"
    ∧ get_tou_rates 14 false "los_angeles_dept_water_power" =
      Except.ok (0.27, "off_peak") := by
  constructor
  · rfl
  · rfl

/-- CLAIM C9.  For every hour in [0,23], every weekend flag and either of the
two utility identifiers fixed in `EVChargingAPI.__init__`
(`los_angeles_dept_water_power`, `southern_california_edison`), the tariff
lookup returns a (rate, period label) pair and never fails. -/
theorem get_tou_rates_total (hour : Nat) (_hh : hour ≤ 23) (w : Bool) (u : String)
    (hu : u = "los_angeles_dept_water_power" ∨ u = "southern_california_edison") :
    ∃ p : ℚ × String, get_tou_rates hour w u = Except.ok p := by
  have hne : u ≠ "ladwp" := by
    rcases hu with h | h <;> (subst h; decide)
  exact get_tou_rates_ok hour w u hne

/-- Witness for C9 at hour 0, weekday, `los_angeles_dept_water_power`. -/
theorem get_tou_rates_total_witness :
    (0 : Nat) ≤ 23 ∧
      ∃ p : ℚ × String,
        get_tou_rates 0 false "los_angeles_dept_water_power" = Except.ok p :=
  ⟨by decide,
    get_tou_rates_total 0 (by decide) false "los_angeles_dept_water_power" (Or.inl rfl)⟩

/-- CLAIM C8.  Every request with `session_end <= session_start` or
`energy_needed_kwh <= 0` is rejected as a client-input error (the handler's
400 responses) and no schedule is computed. -/
theorem optimize_session_rejects_invalid (trace : Nat → ExternalHour)
    (s e : Nat) (E : ℚ) (u : String) (h : e ≤ s ∨ E ≤ 0) :
    ∃ msg, optimize_session trace s e E u = Except.error msg := by
  unfold optimize_session
  by_cases h1 : e ≤ s
  · rw [if_pos h1]
    exact ⟨_, rfl⟩
  · rw [if_neg h1, if_pos (h.resolve_left h1)]
    exact ⟨_, rfl⟩

/-- Witness for C8: `session_end = session_start` is rejected. -/
theorem optimize_session_rejects_invalid_witness :
    ∃ msg, optimize_session trace0 3600000000 3600000000 25
        "los_angeles_dept_water_power" = Except.error msg :=
  optimize_session_rejects_invalid trace0 3600000000 3600000000 25
    "los_angeles_dept_water_power" (Or.inl le_rfl)

/-- CLAIM C5.  Two optimizer runs with identical inputs and identical external
data (same weather responses, same wall-clock solar estimates, same model
outputs) produce identical schedules and summaries. -/
theorem optimize_session_deterministic (t1 t2 : Nat → ExternalHour)
    (s e : Nat) (E : ℚ) (u : String) (h : ∀ i, t1 i = t2 i) :
    optimize_session t1 s e E u = optimize_session t2 s e E u := by
  unfold optimize_session
  rw [buildCandidates_congr t1 t2 u h]

/-- Witness for C5 on a concrete window and trace. -/
theorem optimize_session_deterministic_witness :
    optimize_session trace0 0 10800000000 120 "los_angeles_dept_water_power" =
      optimize_session trace0 0 10800000000 120 "los_angeles_dept_water_power" :=
  optimize_session_deterministic trace0 trace0 0 10800000000 120
    "los_angeles_dept_water_power" (fun _ => rfl)

/-- CLAIM C6.  The summary's `total_energy_kwh` field always reports the
requested `energy_needed_kwh`, including when the window's capacity is
insufficient and the entries sum to less. -/
theorem optimize_session_summary_reports_requested (trace : Nat → ExternalHour)
    (s e : Nat) (E : ℚ) (u : String) (res : OptResult)
    (hres : optimize_session trace s e E u = Except.ok res) :
    res.summary.total_energy_kwh = E := by
  obtain ⟨_, _, cands, _, _, hres2⟩ := optimize_session_ok_elim hres
  subst hres2
  rfl

/-- Witness for C6: a 1-hour window (capacity 50 kWh) asked for 500 kWh still
reports 500 in the summary. -/
theorem optimize_session_summary_reports_requested_witness :
    resShort.summary.total_energy_kwh = 500 :=
  optimize_session_summary_reports_requested trace0 0 3600000000 500
    "los_angeles_dept_water_power" resShort rfl

/-- CLAIM C7.  The candidate hours are exactly the hour boundaries from
`session_start` truncated to the hour, up to but excluding `session_end`, in
1-hour steps; with `session_end` one tick (one microsecond, the `datetime`
resolution) past `session_start` the enumeration has at most one entry, and
the optimizer returns a result rather than an error (for any utility
identifier other than the dangling `'ladwp'` one, which always errors -- see
C2). -/
theorem optimize_session_candidate_hours (trace : Nat → ExternalHour)
    (s e : Nat) (E : ℚ) (u : String)
    (hse : s < e) (hE : 0 < E) (hu : u ≠ "ladwp") :
    (∀ t, t ∈ collectHours e (truncHour s) ↔
        ∃ i : Nat, t = truncHour s + i * usPerHour ∧ t < e)
    ∧ (e = s + 1 → (collectHours e (truncHour s)).length ≤ 1)
    ∧ ∃ res, optimize_session trace s e E u = Except.ok res := by
  have htle := truncHour_le s
  have htlt : truncHour s < e := lt_of_le_of_lt htle hse
  refine ⟨fun t => collectHours_mem e (truncHour s) t, ?_, ?_⟩
  · intro he
    have hlt := lt_truncHour_add s
    have hend : ¬ truncHour s + usPerHour < e := by omega
    rw [collectHours_eq, if_pos htlt, collectHours_eq, if_neg hend]
    simp
  · obtain ⟨cands, hcs, hlen⟩ := buildCandidates_ok trace u hu (collectHours e (truncHour s)) 0
    have hhead : collectHours e (truncHour s) =
        truncHour s :: collectHours e (truncHour s + usPerHour) := by
      rw [collectHours_eq, if_pos htlt]
    have hcne : cands.isEmpty = false := by
      rw [buildCandidates_isEmpty trace u _ 0 cands hcs, hhead]
      rfl
    refine ⟨buildResult E u cands, ?_⟩
    have h1 : ¬ e ≤ s := not_le.mpr hse
    have h2 : ¬ E ≤ 0 := not_le.mpr hE
    unfold optimize_session
    rw [if_neg h1, if_neg h2, hcs]
    dsimp only
    rw [hcne]
    rfl

/-- CLAIM C7, counterexample to the unrestricted "the optimizer does not
error" part: at the same one-tick boundary window, a request naming the
utility identifier `ladwp` makes the per-hour loop's tariff lookup raise the
dangling-attribute `AttributeError` (see C2), so the handler errors.  The
enumeration part and the error-freedom for every other utility identifier are
proved above. -/
theorem optimize_session_candidate_hours_counterexample :
    optimize_session trace0 1800000000 1800000001 5 "ladwp" =
      Except.error "AttributeError: EVChargingAPI object has no attribute ladwp_rates" := rfl

/-- Witness for C7: a window of one microsecond starting half past midnight. -/
theorem optimize_session_candidate_hours_witness :
    (∀ t, t ∈ collectHours 1800000001 (truncHour 1800000000) ↔
        ∃ i : Nat, t = truncHour 1800000000 + i * usPerHour ∧ t < 1800000001)
    ∧ (1800000001 = 1800000000 + 1 →
        (collectHours 1800000001 (truncHour 1800000000)).length ≤ 1)
    ∧ ∃ res, optimize_session trace0 1800000000 1800000001 5
        "los_angeles_dept_water_power" = Except.ok res :=
  optimize_session_candidate_hours trace0 1800000000 1800000001 5
    "los_angeles_dept_water_power" (by norm_num) (by norm_num) (by decide)

/-- CLAIM C1.  For every valid request whose handler returns a result, the
entries' energies sum to at most the requested energy, with equality whenever
50 kW times the number of candidate hours covers the request (exact rational
arithmetic stands in for the floating-point tolerance). -/
theorem optimize_session_energy_conservation (trace : Nat → ExternalHour)
    (s e : Nat) (E : ℚ) (u : String) (res : OptResult)
    (hres : optimize_session trace s e E u = Except.ok res) :
    ((res.charging_schedule.map ScheduleEntry.energy_kwh).sum ≤ E)
    ∧ (E ≤ 50 * (((collectHours e (truncHour s)).length : ℚ)) →
        (res.charging_schedule.map ScheduleEntry.energy_kwh).sum = E) := by
  obtain ⟨hse, hE, cands, hb, hne, hres2⟩ := optimize_session_ok_elim hres
  subst hres2
  rw [buildResult_schedule]
  have hlen : cands.length = (collectHours e (truncHour s)).length :=
    buildCandidates_length trace u _ 0 cands hb
  have hperm :
      List.Perm
        (((allocate E (cands.insertionSort scoreDesc)).insertionSort dtAsc).map
          ScheduleEntry.energy_kwh)
        ((allocate E (cands.insertionSort scoreDesc)).map ScheduleEntry.energy_kwh) :=
    (List.perm_insertionSort dtAsc _).map _
  rw [hperm.sum_eq, allocate_sum _ E hE, List.length_insertionSort, hlen]
  constructor
  · exact min_le_left _ _
  · intro hcap
    exact min_eq_left hcap

/-- Witness for C1: 3 candidate hours, 120 kWh requested, capacity 150. -/
theorem optimize_session_energy_conservation_witness :
    ((resW.charging_schedule.map ScheduleEntry.energy_kwh).sum ≤ 120)
    ∧ ((120 : ℚ) ≤ 50 * (((collectHours 10800000000 (truncHour 0)).length : ℚ)) →
        (resW.charging_schedule.map ScheduleEntry.energy_kwh).sum = 120) :=
  optimize_session_energy_conservation trace0 0 10800000000 120
    "los_angeles_dept_water_power" resW rfl

/-- CLAIM C10.  In every returned schedule each entry's energy lies in
(0, 50], and at most one entry falls strictly below the 50 kWh cap. -/
theorem optimize_session_entry_bounds (trace : Nat → ExternalHour)
    (s e : Nat) (E : ℚ) (u : String) (res : OptResult)
    (hres : optimize_session trace s e E u = Except.ok res) :
    (∀ x ∈ res.charging_schedule, 0 < x.energy_kwh ∧ x.energy_kwh ≤ 50)
    ∧ res.charging_schedule.countP (fun x => decide (x.energy_kwh < 50)) ≤ 1 := by
  obtain ⟨hse, hE, cands, hb, hne, hres2⟩ := optimize_session_ok_elim hres
  subst hres2
  rw [buildResult_schedule]
  constructor
  · intro x hx
    exact allocate_bounds _ E hE x ((List.mem_insertionSort dtAsc).mp hx)
  · rw [(List.perm_insertionSort dtAsc _).countP_eq]
    exact allocate_countP _ E hE

/-- Witness for C10 on the 3-hour, 120 kWh run (entries 50, 50, 20). -/
theorem optimize_session_entry_bounds_witness :
    (∀ x ∈ resW.charging_schedule, 0 < x.energy_kwh ∧ x.energy_kwh ≤ 50)
    ∧ resW.charging_schedule.countP (fun x => decide (x.energy_kwh < 50)) ≤ 1 :=
  optimize_session_entry_bounds trace0 0 10800000000 120
    "los_angeles_dept_water_power" resW rfl

/-- The June entry of the monthly irradiance table. -/
theorem monthly_ghi_june : monthly_ghi.getD 5 0 = 7.24 := rfl

/-- CLAIM C3, counterexample.  The claim asserts `power_kw = 0` for every hour
outside [6,19), but the source zeroes the elevation factor only for
`hour < 6 or hour > 19`, so hour 19 (which the claim covers) yields strictly
positive power under clear June conditions: the cosine factor at the 105
degree hour angle is negative but squared, and every other factor is
positive. -/
theorem calculate_solar_potential_hour19_counterexample :
    ¬ ∀ (hour month : Nat) (w : Weather), (hour < 6 ∨ 19 ≤ hour) →
        (calculate_solar_potential hour month w).power_kw = 0 := by
  intro hclaim
  have h := hclaim 19 6 wClear (Or.inr le_rfl)
  have hpos : 0 < (calculate_solar_potential 19 6 wClear).power_kw := by
    simp only [calculate_solar_potential, wClear]
    rw [if_neg (by norm_num : ¬ ((19 : Nat) < 6 ∨ 19 > 19))]
    have hang : (((19 : Nat) : ℝ) - 12) * 15 * Real.pi / 180 = 7 * Real.pi / 12 := by
      norm_num
      ring
    rw [hang]
    have hcneg : Real.cos (7 * Real.pi / 12) < 0 := by
      apply Real.cos_neg_of_pi_div_two_lt_of_lt
      · nlinarith [Real.pi_pos]
      · nlinarith [Real.pi_pos]
    have hc2 : 0 < Real.cos (7 * Real.pi / 12) ^ 2 := by nlinarith [hcneg]
    have hmax : max 0 (Real.cos (7 * Real.pi / 12) ^ 2) = Real.cos (7 * Real.pi / 12) ^ 2 :=
      max_eq_right (sq_nonneg _)
    rw [hmax, monthly_ghi_june]
    have hpow : (0 : ℝ) <
        7.24 * 1000 / 24 * Real.cos (7 * Real.pi / 12) ^ 2 * 2.5 * (1 - 0 / 100 * 0.8) /
          1000 * 500 * 0.17 * (1 + -0.004 * ((77 - 32) * 5 / 9 - 25)) := by
      nlinarith [hc2]
    exact lt_max_of_lt_right hpow
  exact hpos.ne' h

/-- CLAIM C3, amended.  For every hour outside [6,19] (that is, `hour < 6` or
`hour > 19`) and every weather snapshot and month, the estimated power is
exactly 0: the solar-elevation factor is zeroed, so the irradiance and hence
the power vanish regardless of the remaining factors. -/
theorem calculate_solar_potential_zero_outside (hour month : Nat) (w : Weather)
    (h : hour < 6 ∨ 19 < hour) :
    (calculate_solar_potential hour month w).power_kw = 0 := by
  simp only [calculate_solar_potential]
  rw [if_pos (by omega : hour < 6 ∨ hour > 19)]
  norm_num

/-- Witness for the amended C3 at hour 20 in June. -/
theorem calculate_solar_potential_zero_outside_witness :
    ((20 : Nat) < 6 ∨ 19 < (20 : Nat)) ∧
      (calculate_solar_potential 20 6 wSample).power_kw = 0 :=
  ⟨Or.inr (by norm_num),
    calculate_solar_potential_zero_outside 20 6 wSample (Or.inr (by norm_num))⟩

/-- CLAIM C4.  The scorer returns exactly the neutral 0.5 whenever no model or
no scaler is loaded, and also returns 0.5 (rather than propagating the
failure) when the scaler's `transform` or the model's `predict` raises, for
every input. -/
theorem predict_optimization_score_neutral (env : ModelEnv)
    (nh nm hour doy month : Nat) (wk : Bool) (w : Weather) (u : String) :
    ((env.models = [] ∨ env.scaler_loaded = false) →
        predict_optimization_score env nh nm hour doy month wk w u = 0.5)
    ∧ (∀ msg, env.transform (build_features nh nm hour doy month wk w) = Except.error msg →
        predict_optimization_score env nh nm hour doy month wk w u = 0.5)
    ∧ (∀ scaled msg, env.transform (build_features nh nm hour doy month wk w) = Except.ok scaled →
        env.predict ("lgb_" ++ u) scaled = Except.error msg →
        predict_optimization_score env nh nm hour doy month wk w u = 0.5) := by
  refine ⟨?_, ?_, ?_⟩
  · intro hg
    rcases hg with hm | hs
    · simp [predict_optimization_score, hm]
    · simp [predict_optimization_score, hs]
  · intro msg htr
    by_cases hg : env.models.isEmpty = true ∨ env.scaler_loaded = false
    · simp only [predict_optimization_score, if_pos hg]
    · simp only [predict_optimization_score, if_neg hg, htr]
  · intro scaled msg htr hpr
    by_cases hg : env.models.isEmpty = true ∨ env.scaler_loaded = false
    · simp only [predict_optimization_score, if_pos hg]
    · by_cases hmem : ("lgb_" ++ u) ∈ env.models
      · simp only [predict_optimization_score, if_neg hg, htr, if_pos hmem, hpr]
      · simp only [predict_optimization_score, if_neg hg, htr, if_neg hmem]

/-- Witness for C4: a loaded environment whose `transform` raises yields the
neutral score. -/
theorem predict_optimization_score_neutral_witness :
    predict_optimization_score envBoom 12 6 12 167 6 false wSample
      "los_angeles_dept_water_power" = 0.5 :=
  (predict_optimization_score_neutral envBoom 12 6 12 167 6 false wSample
    "los_angeles_dept_water_power").2.1 "boom" rfl

end EVOpt
